import Mathlib

/-!
Verification of the forecasting-pipeline wrapper in `src/Resources.py`.

The repository is a thin orchestration layer over an external forecasting
library (Prophet).  We embed the wrapper shallowly: the wrapper functions
(`create_prophet_model`, `add_holidays_to_model`, `fit_prophet_model`,
`make_future_predictions`, `plot_forecast`, `run_forecasting_pipeline`) are
translated statement by statement from `src/Resources.py`.  The wrapped
library is not part of the repository; its operations are modelled from the
specification's description of the collaborator contract (sections 3, 4
and 7 of the design document): a model handle is a record of the
configuration, the registered holiday set, the registered extra
seasonalities and the bound history; every library call is logged in a
trace and may fail with a library error.  All computation is in the monad
`LibM`, a state-and-error monad over the call trace, so that sequencing and
abort-on-failure claims are statements about the trace.
-/

/-- Setting of a seasonality switch: the wrapped library accepts
auto-detection, forced on, or forced off. -/
inductive SeasonalitySetting where
  | auto
  | enabled
  | disabled
deriving DecidableEq

/-- The flat configuration record handed to the library constructor:
the seven options the wrapper passes verbatim. -/
structure ProphetConfig where
  growth : String
  changepoint_range : Rat
  yearly_seasonality : SeasonalitySetting
  weekly_seasonality : SeasonalitySetting
  daily_seasonality : SeasonalitySetting
  seasonality_mode : String
  n_changepoints : Nat
deriving DecidableEq

/-- An extra periodic component registered on the handle:
name, period length and harmonic (Fourier) order. -/
structure Seasonality where
  sname : String
  period : Rat
  fourier_order : Nat
deriving DecidableEq

/-- The caller's observation series: ordered (timestamp, value) rows,
timestamps as integers (days), values as rationals. -/
structure Series where
  rows : List (Int × Rat)
deriving DecidableEq

/-- The timestamp column of a series. -/
def Series.ds (df : Series) : List Int := df.rows.map Prod.fst

/-- The last timestamp of a series (0 if empty; only used on nonempty
histories). -/
def Series.lastDs (df : Series) : Int := (df.ds).getLastD 0

/-- The caller's optional holiday table: (date, holiday label) rows. -/
structure HolidayTable where
  rows : List (Int × String)
deriving DecidableEq

/-- Modelled from the spec: the opaque model handle of the wrapped
library.  It carries the configuration, the optionally registered country
holiday set, the list of registered extra seasonal components, and the
bound history (`none` while unfit). -/
structure Model where
  config : ProphetConfig
  country_holidays : Option String
  seasonalities : List Seasonality
  history : Option Series
deriving DecidableEq

/-- A forecast row: timestamp, predicted value, lower bound, upper bound. -/
structure Forecast where
  rows : List (Int × (Rat × Rat × Rat))
deriving DecidableEq

/-- The timestamp column of a forecast. -/
def Forecast.ds (fc : Forecast) : List Int := fc.rows.map Prod.fst

/-- The figure produced by the rendering library: it references the model
and the forecast that were plotted. -/
structure Fig where
  fmodel : Model
  ffc : Forecast
deriving DecidableEq

/-- Modelled from the spec: the error conditions raised by the external
forecasting library (invalid configuration values, malformed or empty
input series, prediction on an unfit handle, unsupported frequency). -/
inductive LibErr where
  | invalidConfig
  | emptySeries
  | invalidFreq
  | unfitModel
deriving DecidableEq

/-- One logged library call, recording the handle and arguments passed. -/
inductive Event where
  | createCall (cfg : ProphetConfig)
  | addCountryHolidaysCall (m : Model) (country : String)
  | addSeasonalityCall (m : Model) (s : Seasonality)
  | fitCall (m : Model) (df : Series)
  | makeFutureCall (m : Model) (periods : Nat) (freq : String)
  | predictCall (m : Model) (future : List Int)
  | plotCall (m : Model) (fc : Forecast)
deriving DecidableEq

/-- The library-call monad: threads the call trace and propagates the
first library error, mirroring Python exception propagation. -/
def LibM (α : Type) : Type := List Event → Except LibErr α × List Event

/-- Return for `LibM`. -/
def LibM.ret {α : Type} (a : α) : LibM α := fun tr => (Except.ok a, tr)

/-- Bind for `LibM`: on failure the rest of the computation is skipped
and the error propagates unmodified. -/
def LibM.bind {α β : Type} (x : LibM α) (f : α → LibM β) : LibM β :=
  fun tr =>
    match x tr with
    | (Except.ok a, tr1) => f a tr1
    | (Except.error e, tr1) => (Except.error e, tr1)

/-- Log one library call. -/
def LibM.logE (e : Event) : LibM Unit := fun tr => (Except.ok (), tr ++ [e])

/-- Raise a library error. -/
def LibM.fail {α : Type} (e : LibErr) : LibM α := fun tr => (Except.error e, tr)

/-- Modelled from the spec: the growth modes the library accepts
(one of linear, logistic, flat). -/
def validGrowth (g : String) : Bool :=
  g == "linear" || g == "logistic" || g == "flat"

/-- Modelled from the spec: the seasonality modes the library accepts
(additive or multiplicative). -/
def validSeasonalityMode (m : String) : Bool :=
  m == "additive" || m == "multiplicative"

/-- Modelled from the spec: the library's own configuration validation —
growth mode and seasonality mode must be in their enumerated sets and the
changepoint range must be a fraction in [0,1].  The wrapper performs no
validation of its own. -/
def validConfig (c : ProphetConfig) : Bool :=
  validGrowth c.growth && validSeasonalityMode c.seasonality_mode &&
    decide (0 ≤ c.changepoint_range) && decide (c.changepoint_range ≤ 1)

/-- Modelled from the spec: the library constructor.  Logs the call,
rejects an invalid configuration, otherwise returns a fresh handle in
"configured" state reflecting exactly the supplied options. -/
def Prophet.init (cfg : ProphetConfig) : LibM Model :=
  LibM.bind (LibM.logE (Event.createCall cfg)) fun _ =>
    if validConfig cfg then LibM.ret ⟨cfg, none, [], none⟩
    else LibM.fail LibErr.invalidConfig

/-- Modelled from the spec: register a fixed country holiday set on the
handle. -/
def Model.add_country_holidays (m : Model) (country : String) : LibM Model :=
  LibM.bind (LibM.logE (Event.addCountryHolidaysCall m country)) fun _ =>
    LibM.ret ⟨m.config, some country, m.seasonalities, m.history⟩

/-- Modelled from the spec: register one additional named periodic
component on the handle. -/
def Model.add_seasonality (m : Model) (s : Seasonality) : LibM Model :=
  LibM.bind (LibM.logE (Event.addSeasonalityCall m s)) fun _ =>
    LibM.ret ⟨m.config, m.country_holidays, m.seasonalities ++ [s], m.history⟩

/-- Modelled from the spec: fitting binds the observation series to the
handle without modifying the series; an empty or malformed series is
rejected by the library. -/
def Model.fit (m : Model) (df : Series) : LibM Model :=
  LibM.bind (LibM.logE (Event.fitCall m df)) fun _ =>
    if df.rows.isEmpty then LibM.fail LibErr.emptySeries
    else LibM.ret ⟨m.config, m.country_holidays, m.seasonalities, some df⟩

/-- Modelled from the spec: the step size of a supported frequency string
(daily and weekly shown; anything else is rejected by the library). -/
def freqStep (freq : String) : Option Int :=
  if freq == "D" then some 1 else if freq == "W" then some 7 else none

/-- Modelled from the spec: synthesize the extended timestamp series — the
original observation timestamps followed by `periods` future steps at the
given frequency, starting after the last observed timestamp.  Fails on an
unfit handle or an unsupported frequency. -/
def Model.make_future_dataframe (m : Model) (periods : Nat) (freq : String) :
    LibM (List Int) :=
  LibM.bind (LibM.logE (Event.makeFutureCall m periods freq)) fun _ =>
    match m.history with
    | none => LibM.fail LibErr.unfitModel
    | some h =>
        match freqStep freq with
        | none => LibM.fail LibErr.invalidFreq
        | some s =>
            LibM.ret (h.ds ++ (List.range periods).map
              (fun i => h.lastDs + s * (Int.ofNat i + 1)))

/-- The opaque estimation step of the wrapped library: given the fitted
handle and a timestamp, it produces (predicted value, lower bound, upper
bound).  Kept abstract — every theorem quantifies over it. -/
structure LibOracle where
  yhat : Model → Int → Rat × Rat × Rat

/-- Modelled from the spec: prediction over an extended timestamp series.
Fails on an unfit handle; otherwise returns one forecast row per
timestamp, values given by the library's (opaque) estimation. -/
def Model.predict (L : LibOracle) (m : Model) (future : List Int) :
    LibM Forecast :=
  LibM.bind (LibM.logE (Event.predictCall m future)) fun _ =>
    match m.history with
    | none => LibM.fail LibErr.unfitModel
    | some _ => LibM.ret ⟨future.map (fun d => (d, L.yhat m d))⟩

/-- Modelled from the spec: the rendering step.  Produces a figure from
the fitted handle and the forecast; fails on an unfit handle. -/
def Model.plot (m : Model) (fc : Forecast) : LibM Fig :=
  LibM.bind (LibM.logE (Event.plotCall m fc)) fun _ =>
    match m.history with
    | none => LibM.fail LibErr.unfitModel
    | some _ => LibM.ret ⟨m, fc⟩

/-- `create_prophet_model` from `src/Resources.py`: constructs a Prophet
model passing the seven options through to the library constructor and
returns the handle. -/
def create_prophet_model (growth : String) (changepoint_range : Rat)
    (yearly_seasonality weekly_seasonality daily_seasonality : SeasonalitySetting)
    (seasonality_mode : String) (n_changepoints : Nat) : LibM Model :=
  LibM.bind (Prophet.init ⟨growth, changepoint_range, yearly_seasonality,
      weekly_seasonality, daily_seasonality, seasonality_mode,
      n_changepoints⟩) fun model =>
    LibM.ret model

/-- `add_holidays_to_model` from `src/Resources.py`: registers the fixed
US holiday set and a monthly seasonality (period 30.5, Fourier order 5) on
the handle and returns it.  Note that the `holidays_df` argument is never
read. -/
def add_holidays_to_model (model : Model) (holidays_df : HolidayTable) :
    LibM Model :=
  LibM.bind (Model.add_country_holidays model "US") fun model1 =>
    LibM.bind (Model.add_seasonality model1 ⟨"monthly", (61 : Rat) / 2, 5⟩)
      fun model2 =>
      LibM.ret model2

/-- `fit_prophet_model` from `src/Resources.py`: fits the model to the
data and returns it. -/
def fit_prophet_model (model : Model) (df : Series) : LibM Model :=
  LibM.bind (Model.fit model df) fun model1 =>
    LibM.ret model1

/-- `make_future_predictions` from `src/Resources.py`: builds the future
timestamp series and predicts over it. -/
def make_future_predictions (L : LibOracle) (model : Model) (periods : Nat)
    (freq : String) : LibM Forecast :=
  LibM.bind (Model.make_future_dataframe model periods freq) fun future =>
    LibM.bind (Model.predict L model future) fun forecast =>
      LibM.ret forecast

/-- `plot_forecast` from `src/Resources.py`: renders the forecast with the
library's plotting function and returns the figure. -/
def plot_forecast (model : Model) (forecast : Forecast) : LibM Fig :=
  LibM.bind (Model.plot model forecast) fun fig =>
    LibM.ret fig

/-- `run_forecasting_pipeline` from `src/Resources.py`: create the model,
add holidays if provided, fit, predict, plot, and return the forecast. -/
def run_forecasting_pipeline (L : LibOracle) (data : Series) (growth : String)
    (changepoint_range : Rat)
    (yearly_seasonality weekly_seasonality daily_seasonality : SeasonalitySetting)
    (seasonality_mode : String) (n_changepoints : Nat) (periods : Nat)
    (freq : String) (holidays_df : Option HolidayTable) : LibM Forecast :=
  LibM.bind (create_prophet_model growth changepoint_range yearly_seasonality
      weekly_seasonality daily_seasonality seasonality_mode n_changepoints)
    fun model =>
    LibM.bind (match holidays_df with
      | some h => add_holidays_to_model model h
      | none => LibM.ret model) fun model1 =>
      LibM.bind (fit_prophet_model model1 data) fun model2 =>
        LibM.bind (make_future_predictions L model2 periods freq)
          fun forecast =>
          LibM.bind (plot_forecast model2 forecast) fun _ =>
            LibM.ret forecast

/-! ### Closed forms of the pipeline run

The following definitions summarise, stage by stage, what a run of the
pipeline produces; the lemmas below prove that `run_forecasting_pipeline`
equals these closed forms.  The claim theorems are stated against them. -/

/-- The configuration record the pipeline assembles from its seven
configuration arguments. -/
def cfgOf (growth : String) (changepoint_range : Rat)
    (ys ws dse : SeasonalitySetting) (seasonality_mode : String)
    (n_changepoints : Nat) : ProphetConfig :=
  ⟨growth, changepoint_range, ys, ws, dse, seasonality_mode, n_changepoints⟩

/-- The fixed monthly seasonal component the augmenter registers. -/
def monthlySeas : Seasonality := ⟨"monthly", (61 : Rat) / 2, 5⟩

/-- A freshly configured handle: no holidays, no extra seasonalities,
unfit. -/
def freshModel (cfg : ProphetConfig) : Model := ⟨cfg, none, [], none⟩

/-- The effect of the augmenter on a handle: fixed US holiday set plus the
fixed monthly component appended. -/
def usAugment (m : Model) : Model :=
  ⟨m.config, some "US", m.seasonalities ++ [monthlySeas], m.history⟩

/-- The handle reaching the fitter: augmented when a holiday table is
present, untouched otherwise. -/
def preFitModel (cfg : ProphetConfig) (hdf : Option HolidayTable) : Model :=
  match hdf with
  | some _ => usAugment (freshModel cfg)
  | none => freshModel cfg

/-- The fitted handle: the pre-fit handle with the caller's series bound
as history. -/
def fittedModel (cfg : ProphetConfig) (hdf : Option HolidayTable)
    (data : Series) : Model :=
  ⟨(preFitModel cfg hdf).config, (preFitModel cfg hdf).country_holidays,
    (preFitModel cfg hdf).seasonalities, some data⟩

/-- The extended timestamp series: the observed timestamps followed by
`periods` future steps of size `s`. -/
def futureOf (data : Series) (periods : Nat) (s : Int) : List Int :=
  data.ds ++ (List.range periods).map
    (fun i => data.lastDs + s * (Int.ofNat i + 1))

/-- The forecast a successful run returns: one row per extended
timestamp, values from the library's estimation on the fitted handle. -/
def forecastOf (L : LibOracle) (cfg : ProphetConfig)
    (hdf : Option HolidayTable) (data : Series) (periods : Nat) (s : Int) :
    Forecast :=
  ⟨(futureOf data periods s).map
    (fun d => (d, L.yhat (fittedModel cfg hdf data) d))⟩

/-- The augmentation events of a run: two library calls when a holiday
table is present, none otherwise. -/
def augEvents (cfg : ProphetConfig) (hdf : Option HolidayTable) :
    List Event :=
  match hdf with
  | some _ => [Event.addCountryHolidaysCall (freshModel cfg) "US",
      Event.addSeasonalityCall ⟨cfg, some "US", [], none⟩ monthlySeas]
  | none => []

/-- The full call trace of a successful run. -/
def successTrace (L : LibOracle) (cfg : ProphetConfig)
    (hdf : Option HolidayTable) (data : Series) (periods : Nat)
    (freq : String) (s : Int) : List Event :=
  Event.createCall cfg :: augEvents cfg hdf ++
    [Event.fitCall (preFitModel cfg hdf) data,
     Event.makeFutureCall (fittedModel cfg hdf data) periods freq,
     Event.predictCall (fittedModel cfg hdf data) (futureOf data periods s),
     Event.plotCall (fittedModel cfg hdf data)
       (forecastOf L cfg hdf data periods s)]

theorem run_pipeline_success (L : LibOracle) (data : Series) (g : String)
    (cr : Rat) (ys ws dse : SeasonalitySetting) (sm : String) (nc : Nat)
    (periods : Nat) (freq : String) (hdf : Option HolidayTable)
    (tr : List Event) (s : Int)
    (hv : validConfig (cfgOf g cr ys ws dse sm nc) = true)
    (hd : data.rows ≠ []) (hf : freqStep freq = some s) :
    run_forecasting_pipeline L data g cr ys ws dse sm nc periods freq hdf tr =
      (Except.ok (forecastOf L (cfgOf g cr ys ws dse sm nc) hdf data periods s),
        tr ++ successTrace L (cfgOf g cr ys ws dse sm nc) hdf data periods
          freq s) := by
  have hde : data.rows.isEmpty = false := by
    cases h : data.rows with
    | nil => exact absurd h hd
    | cons a l => rfl
  cases hdf with
  | none =>
      simp [run_forecasting_pipeline, create_prophet_model, Prophet.init,
        add_holidays_to_model, fit_prophet_model, Model.fit,
        make_future_predictions, Model.make_future_dataframe, Model.predict,
        plot_forecast, Model.plot, Model.add_country_holidays,
        Model.add_seasonality, LibM.bind, LibM.ret, LibM.logE, LibM.fail,
        cfgOf] at *
      simp [hv, hde, hf, successTrace, augEvents, preFitModel, freshModel,
        fittedModel, forecastOf, futureOf, monthlySeas, cfgOf, LibM.bind,
        LibM.ret, LibM.logE, LibM.fail]
  | some h =>
      simp [run_forecasting_pipeline, create_prophet_model, Prophet.init,
        add_holidays_to_model, fit_prophet_model, Model.fit,
        make_future_predictions, Model.make_future_dataframe, Model.predict,
        plot_forecast, Model.plot, Model.add_country_holidays,
        Model.add_seasonality, LibM.bind, LibM.ret, LibM.logE, LibM.fail,
        cfgOf] at *
      simp [hv, hde, hf, successTrace, augEvents, preFitModel, freshModel,
        usAugment, fittedModel, forecastOf, futureOf, monthlySeas, cfgOf,
        LibM.bind, LibM.ret, LibM.logE, LibM.fail]

theorem run_pipeline_invalid_config (L : LibOracle) (data : Series)
    (g : String) (cr : Rat) (ys ws dse : SeasonalitySetting) (sm : String)
    (nc : Nat) (periods : Nat) (freq : String) (hdf : Option HolidayTable)
    (tr : List Event)
    (hv : validConfig (cfgOf g cr ys ws dse sm nc) = false) :
    run_forecasting_pipeline L data g cr ys ws dse sm nc periods freq hdf tr =
      (Except.error LibErr.invalidConfig,
        tr ++ [Event.createCall (cfgOf g cr ys ws dse sm nc)]) := by
  simp [run_forecasting_pipeline, create_prophet_model, Prophet.init,
    LibM.bind, LibM.ret, LibM.logE, LibM.fail, cfgOf] at *
  simp [hv, LibM.bind, LibM.ret, LibM.logE, LibM.fail]

theorem run_pipeline_empty_data (L : LibOracle) (data : Series)
    (g : String) (cr : Rat) (ys ws dse : SeasonalitySetting) (sm : String)
    (nc : Nat) (periods : Nat) (freq : String) (hdf : Option HolidayTable)
    (tr : List Event)
    (hv : validConfig (cfgOf g cr ys ws dse sm nc) = true)
    (hd : data.rows = []) :
    run_forecasting_pipeline L data g cr ys ws dse sm nc periods freq hdf tr =
      (Except.error LibErr.emptySeries,
        tr ++ Event.createCall (cfgOf g cr ys ws dse sm nc) ::
          augEvents (cfgOf g cr ys ws dse sm nc) hdf ++
          [Event.fitCall (preFitModel (cfgOf g cr ys ws dse sm nc) hdf)
            data]) := by
  have hde : data.rows.isEmpty = true := by simp [hd]
  cases hdf with
  | none =>
      simp [run_forecasting_pipeline, create_prophet_model, Prophet.init,
        add_holidays_to_model, fit_prophet_model, Model.fit,
        Model.add_country_holidays, Model.add_seasonality, LibM.bind,
        LibM.ret, LibM.logE, LibM.fail, cfgOf] at *
      simp [hv, hde, augEvents, preFitModel, freshModel, cfgOf, LibM.bind,
        LibM.ret, LibM.logE, LibM.fail]
  | some h =>
      simp [run_forecasting_pipeline, create_prophet_model, Prophet.init,
        add_holidays_to_model, fit_prophet_model, Model.fit,
        Model.add_country_holidays, Model.add_seasonality, LibM.bind,
        LibM.ret, LibM.logE, LibM.fail, cfgOf] at *
      simp [hv, hde, augEvents, preFitModel, freshModel, usAugment,
        monthlySeas, cfgOf, LibM.bind, LibM.ret, LibM.logE, LibM.fail]

theorem run_pipeline_bad_freq (L : LibOracle) (data : Series)
    (g : String) (cr : Rat) (ys ws dse : SeasonalitySetting) (sm : String)
    (nc : Nat) (periods : Nat) (freq : String) (hdf : Option HolidayTable)
    (tr : List Event)
    (hv : validConfig (cfgOf g cr ys ws dse sm nc) = true)
    (hd : data.rows ≠ []) (hf : freqStep freq = none) :
    run_forecasting_pipeline L data g cr ys ws dse sm nc periods freq hdf tr =
      (Except.error LibErr.invalidFreq,
        tr ++ Event.createCall (cfgOf g cr ys ws dse sm nc) ::
          augEvents (cfgOf g cr ys ws dse sm nc) hdf ++
          [Event.fitCall (preFitModel (cfgOf g cr ys ws dse sm nc) hdf) data,
           Event.makeFutureCall
             (fittedModel (cfgOf g cr ys ws dse sm nc) hdf data) periods
             freq]) := by
  have hde : data.rows.isEmpty = false := by
    cases h : data.rows with
    | nil => exact absurd h hd
    | cons a l => rfl
  cases hdf with
  | none =>
      simp [run_forecasting_pipeline, create_prophet_model, Prophet.init,
        add_holidays_to_model, fit_prophet_model, Model.fit,
        make_future_predictions, Model.make_future_dataframe,
        Model.add_country_holidays, Model.add_seasonality, LibM.bind,
        LibM.ret, LibM.logE, LibM.fail, cfgOf] at *
      simp [hv, hde, hf, augEvents, preFitModel, freshModel, fittedModel,
        cfgOf, LibM.bind, LibM.ret, LibM.logE, LibM.fail]
  | some h =>
      simp [run_forecasting_pipeline, create_prophet_model, Prophet.init,
        add_holidays_to_model, fit_prophet_model, Model.fit,
        make_future_predictions, Model.make_future_dataframe,
        Model.add_country_holidays, Model.add_seasonality, LibM.bind,
        LibM.ret, LibM.logE, LibM.fail, cfgOf] at *
      simp [hv, hde, hf, augEvents, preFitModel, freshModel, usAugment,
        fittedModel, monthlySeas, cfgOf, LibM.bind, LibM.ret, LibM.logE,
        LibM.fail]

theorem LibM.bind_congr {α β : Type} (x : LibM α) (f g : α → LibM β)
    (h : ∀ a tr, f a tr = g a tr) (tr : List Event) :
    LibM.bind x f tr = LibM.bind x g tr := by
  unfold LibM.bind
  cases hx : x tr with
  | mk r t =>
      cases r with
      | ok a => exact h a t
      | error e => rfl

/-- A pipeline with no augmentation step at all, following the spec's
words for the identity-transform comparison: create the model, fit it,
predict, plot, return the forecast — the holiday step absent entirely. -/
def run_pipeline_no_augment (L : LibOracle) (data : Series) (growth : String)
    (changepoint_range : Rat)
    (yearly_seasonality weekly_seasonality daily_seasonality : SeasonalitySetting)
    (seasonality_mode : String) (n_changepoints : Nat) (periods : Nat)
    (freq : String) : LibM Forecast :=
  LibM.bind (create_prophet_model growth changepoint_range yearly_seasonality
      weekly_seasonality daily_seasonality seasonality_mode n_changepoints)
    fun model =>
    LibM.bind (fit_prophet_model model data) fun model2 =>
      LibM.bind (make_future_predictions L model2 periods freq)
        fun forecast =>
        LibM.bind (plot_forecast model2 forecast) fun _ =>
          LibM.ret forecast

/-- C2: with `holidays_df = none` the augmentation step is skipped
entirely — the run (its result and its full library-call trace) is
identical to that of a pipeline with no augmentation step at all. -/
theorem C2_no_holidays_identity (L : LibOracle) (data : Series) (g : String)
    (cr : Rat) (ys ws dse : SeasonalitySetting) (sm : String) (nc : Nat)
    (periods : Nat) (freq : String) (tr : List Event) :
    run_forecasting_pipeline L data g cr ys ws dse sm nc periods freq none tr =
      run_pipeline_no_augment L data g cr ys ws dse sm nc periods freq tr := by
  simp only [run_forecasting_pipeline, run_pipeline_no_augment]
  exact LibM.bind_congr _ _ _ (fun a tr1 => rfl) tr

/-- C3: `add_holidays_to_model` never reads the contents of its
`holidays_df` argument, so running the augmenter — and the whole pipeline —
with any two non-None holiday tables gives identical results and traces. -/
theorem C3_holiday_content_irrelevant (L : LibOracle) (data : Series)
    (g : String) (cr : Rat) (ys ws dse : SeasonalitySetting) (sm : String)
    (nc : Nat) (periods : Nat) (freq : String) (h1 h2 : HolidayTable)
    (m : Model) (tr : List Event) :
    add_holidays_to_model m h1 tr = add_holidays_to_model m h2 tr ∧
    run_forecasting_pipeline L data g cr ys ws dse sm nc periods freq
        (some h1) tr =
      run_forecasting_pipeline L data g cr ys ws dse sm nc periods freq
        (some h2) tr :=
  ⟨rfl, rfl⟩

/-- C6: `create_prophet_model` passes each of the seven supplied options
verbatim to the library constructor — the returned handle's configuration
record is exactly the supplied one, with no silent overrides. -/
theorem C6_config_passed_verbatim (g : String) (cr : Rat)
    (ys ws dse : SeasonalitySetting) (sm : String) (nc : Nat)
    (tr : List Event) (hv : validConfig (cfgOf g cr ys ws dse sm nc) = true) :
    create_prophet_model g cr ys ws dse sm nc tr =
      (Except.ok ⟨⟨g, cr, ys, ws, dse, sm, nc⟩, none, [], none⟩,
        tr ++ [Event.createCall ⟨g, cr, ys, ws, dse, sm, nc⟩]) := by
  simp only [create_prophet_model, Prophet.init, LibM.bind, LibM.ret,
    LibM.logE, LibM.fail, cfgOf] at *
  simp [hv, LibM.ret]

/-- C6 witness: at the source's default configuration the constructor
returns a handle carrying exactly those options. -/
theorem C6_config_passed_verbatim_witness :
    validConfig (cfgOf "linear" 1 SeasonalitySetting.auto
        SeasonalitySetting.auto SeasonalitySetting.disabled "additive" 25) =
      true ∧
    create_prophet_model "linear" 1 SeasonalitySetting.auto
        SeasonalitySetting.auto SeasonalitySetting.disabled "additive" 25 [] =
      (Except.ok ⟨⟨"linear", 1, SeasonalitySetting.auto,
          SeasonalitySetting.auto, SeasonalitySetting.disabled, "additive",
          25⟩, none, [], none⟩,
        [] ++ [Event.createCall ⟨"linear", 1, SeasonalitySetting.auto,
          SeasonalitySetting.auto, SeasonalitySetting.disabled, "additive",
          25⟩]) :=
  ⟨by decide,
    C6_config_passed_verbatim "linear" 1 SeasonalitySetting.auto
      SeasonalitySetting.auto SeasonalitySetting.disabled "additive" 25 []
      (by decide)⟩

/-- C7: the forecasting step is deterministic given a fixed handle and
identical horizon/frequency inputs — calls made at any two points of the
pipeline (any two incoming traces, i.e. two consecutive calls) return the
same value, in particular identical timestamp ranges. -/
theorem C7_forecast_deterministic (L : LibOracle) (m : Model)
    (periods : Nat) (freq : String) (tr1 tr2 : List Event) :
    (make_future_predictions L m periods freq tr1).1 =
      (make_future_predictions L m periods freq tr2).1 ∧
    (∀ fc1 fc2 : Forecast,
      (make_future_predictions L m periods freq tr1).1 = Except.ok fc1 →
      (make_future_predictions L m periods freq tr2).1 = Except.ok fc2 →
      fc1.ds = fc2.ds) := by
  have hval : (make_future_predictions L m periods freq tr1).1 =
      (make_future_predictions L m periods freq tr2).1 := by
    cases hh : m.history with
    | none =>
        simp [make_future_predictions, Model.make_future_dataframe,
          Model.predict, LibM.bind, LibM.ret, LibM.logE, LibM.fail, hh]
    | some h =>
        cases hf : freqStep freq with
        | none =>
            simp [make_future_predictions, Model.make_future_dataframe,
              Model.predict, LibM.bind, LibM.ret, LibM.logE, LibM.fail, hh,
              hf]
        | some s =>
            simp [make_future_predictions, Model.make_future_dataframe,
              Model.predict, LibM.bind, LibM.ret, LibM.logE, LibM.fail, hh,
              hf]
  refine ⟨hval, fun fc1 fc2 h1 h2 => ?_⟩
  rw [hval, h2] at h1
  cases h1
  rfl

/-- A concrete oracle assigning zero predictions, used to instantiate
theorems at concrete inputs. -/
def zeroOracle : LibOracle := ⟨fun _ _ => (0, 0, 0)⟩

/-- A concrete one-row observation series. -/
def sampleSeries : Series := ⟨[(0, 0)]⟩

/-- A concrete valid configuration. -/
def sampleCfg : ProphetConfig :=
  cfgOf "linear" 1 SeasonalitySetting.auto SeasonalitySetting.auto
    SeasonalitySetting.disabled "additive" 25

/-- C1: a completed run of `run_forecasting_pipeline` executes exactly the
sequence create, then augment (present if and only if a holiday table is
supplied), then fit, then future-and-predict, then plot — threading the
evolving handle through each stage — and returns exactly the forecast that
`make_future_predictions` produces on the fitted handle. -/
theorem C1_pipeline_strict_sequence (L : LibOracle) (data : Series)
    (g : String) (cr : Rat) (ys ws dse : SeasonalitySetting) (sm : String)
    (nc : Nat) (periods : Nat) (freq : String) (hdf : Option HolidayTable)
    (s : Int) (hv : validConfig (cfgOf g cr ys ws dse sm nc) = true)
    (hd : data.rows ≠ []) (hf : freqStep freq = some s) :
    run_forecasting_pipeline L data g cr ys ws dse sm nc periods freq hdf [] =
      (Except.ok (forecastOf L (cfgOf g cr ys ws dse sm nc) hdf data periods
          s),
        successTrace L (cfgOf g cr ys ws dse sm nc) hdf data periods freq
          s) ∧
    (make_future_predictions L (fittedModel (cfgOf g cr ys ws dse sm nc) hdf
        data) periods freq []).1 =
      Except.ok (forecastOf L (cfgOf g cr ys ws dse sm nc) hdf data periods
        s) := by
  constructor
  · have h := run_pipeline_success L data g cr ys ws dse sm nc periods freq
      hdf [] s hv hd hf
    simpa using h
  · simp [make_future_predictions, Model.make_future_dataframe,
      Model.predict, LibM.bind, LibM.ret, LibM.logE, fittedModel, hf,
      forecastOf, futureOf]

/-- C1 witness: the pipeline at a concrete valid input runs the full
sequence and returns the predicted forecast. -/
theorem C1_pipeline_strict_sequence_witness :
    run_forecasting_pipeline zeroOracle sampleSeries "linear" 1
        SeasonalitySetting.auto SeasonalitySetting.auto
        SeasonalitySetting.disabled "additive" 25 2 "D" none [] =
      (Except.ok (forecastOf zeroOracle sampleCfg none sampleSeries 2 1),
        successTrace zeroOracle sampleCfg none sampleSeries 2 "D" 1) ∧
    (make_future_predictions zeroOracle (fittedModel sampleCfg none
        sampleSeries) 2 "D" []).1 =
      Except.ok (forecastOf zeroOracle sampleCfg none sampleSeries 2 1) :=
  C1_pipeline_strict_sequence zeroOracle sampleSeries "linear" 1
    SeasonalitySetting.auto SeasonalitySetting.auto
    SeasonalitySetting.disabled "additive" 25 2 "D" none 1 (by decide)
    (by decide) (by decide)

/-- C4: when a holiday table is supplied, the augmenter registers the
fixed US holiday set and exactly one additional named component (name
monthly, period 61/2 = 30.5, Fourier order 5) on the handle it received,
leaving its configuration and fit state untouched (still unfit if it was
unfit); and in the pipeline both augmentation calls happen strictly before
the fit call. -/
theorem C4_augmenter_fixed_registration (m : Model) (h : HolidayTable)
    (tr : List Event) (L : LibOracle) (data : Series) (g : String)
    (cr : Rat) (ys ws dse : SeasonalitySetting) (sm : String) (nc : Nat)
    (periods : Nat) (freq : String) (s : Int)
    (hv : validConfig (cfgOf g cr ys ws dse sm nc) = true)
    (hd : data.rows ≠ []) (hf : freqStep freq = some s) :
    add_holidays_to_model m h tr =
      (Except.ok ⟨m.config, some "US",
          m.seasonalities ++ [⟨"monthly", (61 : Rat) / 2, 5⟩], m.history⟩,
        tr ++ [Event.addCountryHolidaysCall m "US",
          Event.addSeasonalityCall
            ⟨m.config, some "US", m.seasonalities, m.history⟩
            ⟨"monthly", (61 : Rat) / 2, 5⟩]) ∧
    (run_forecasting_pipeline L data g cr ys ws dse sm nc periods freq
        (some h) []).2 =
      Event.createCall (cfgOf g cr ys ws dse sm nc) ::
        Event.addCountryHolidaysCall
          (freshModel (cfgOf g cr ys ws dse sm nc)) "US" ::
        Event.addSeasonalityCall
          ⟨cfgOf g cr ys ws dse sm nc, some "US", [], none⟩ monthlySeas ::
        Event.fitCall (usAugment (freshModel (cfgOf g cr ys ws dse sm nc)))
          data ::
        [Event.makeFutureCall
            (fittedModel (cfgOf g cr ys ws dse sm nc) (some h) data) periods
            freq,
          Event.predictCall
            (fittedModel (cfgOf g cr ys ws dse sm nc) (some h) data)
            (futureOf data periods s),
          Event.plotCall
            (fittedModel (cfgOf g cr ys ws dse sm nc) (some h) data)
            (forecastOf L (cfgOf g cr ys ws dse sm nc) (some h) data periods
              s)] := by
  constructor
  · simp [add_holidays_to_model, Model.add_country_holidays,
      Model.add_seasonality, LibM.bind, LibM.ret, LibM.logE]
  · rw [run_pipeline_success L data g cr ys ws dse sm nc periods freq
      (some h) [] s hv hd hf]
    simp [successTrace, augEvents, preFitModel]

/-- C4 witness: the augmenter at a concrete handle registers the US set
and the monthly component and returns the handle still unfit. -/
theorem C4_augmenter_fixed_registration_witness :
    add_holidays_to_model (freshModel sampleCfg) ⟨[]⟩ [] =
      (Except.ok ⟨(freshModel sampleCfg).config, some "US",
          (freshModel sampleCfg).seasonalities ++
            [⟨"monthly", (61 : Rat) / 2, 5⟩],
          (freshModel sampleCfg).history⟩,
        [] ++ [Event.addCountryHolidaysCall (freshModel sampleCfg) "US",
          Event.addSeasonalityCall
            ⟨(freshModel sampleCfg).config, some "US",
              (freshModel sampleCfg).seasonalities,
              (freshModel sampleCfg).history⟩
            ⟨"monthly", (61 : Rat) / 2, 5⟩]) :=
  (C4_augmenter_fixed_registration (freshModel sampleCfg) ⟨[]⟩ []
    zeroOracle sampleSeries "linear" 1 SeasonalitySetting.auto
    SeasonalitySetting.auto SeasonalitySetting.disabled "additive" 25 2 "D"
    1 (by decide) (by decide) (by decide)).1

/-- C5: the wrapper validates nothing itself — when a run fails, the error
returned is exactly the library error of the failing stage, the pipeline
aborts there (the trace contains no event of any later stage), and no
forecast is returned; an out-of-order (unfit-handle) error can never be
produced by the pipeline itself. -/
theorem C5_errors_abort_pipeline (L : LibOracle) (data : Series)
    (g : String) (cr : Rat) (ys ws dse : SeasonalitySetting) (sm : String)
    (nc : Nat) (periods : Nat) (freq : String) (hdf : Option HolidayTable)
    (e : LibErr)
    (he : (run_forecasting_pipeline L data g cr ys ws dse sm nc periods freq
        hdf []).1 = Except.error e) :
    (e = LibErr.invalidConfig →
      run_forecasting_pipeline L data g cr ys ws dse sm nc periods freq hdf
          [] =
        (Except.error LibErr.invalidConfig,
          [Event.createCall (cfgOf g cr ys ws dse sm nc)])) ∧
    (e = LibErr.emptySeries →
      run_forecasting_pipeline L data g cr ys ws dse sm nc periods freq hdf
          [] =
        (Except.error LibErr.emptySeries,
          Event.createCall (cfgOf g cr ys ws dse sm nc) ::
            augEvents (cfgOf g cr ys ws dse sm nc) hdf ++
            [Event.fitCall (preFitModel (cfgOf g cr ys ws dse sm nc) hdf)
              data])) ∧
    (e = LibErr.invalidFreq →
      run_forecasting_pipeline L data g cr ys ws dse sm nc periods freq hdf
          [] =
        (Except.error LibErr.invalidFreq,
          Event.createCall (cfgOf g cr ys ws dse sm nc) ::
            augEvents (cfgOf g cr ys ws dse sm nc) hdf ++
            [Event.fitCall (preFitModel (cfgOf g cr ys ws dse sm nc) hdf)
              data,
             Event.makeFutureCall
               (fittedModel (cfgOf g cr ys ws dse sm nc) hdf data) periods
               freq])) ∧
    e ≠ LibErr.unfitModel := by
  by_cases hv : validConfig (cfgOf g cr ys ws dse sm nc) = true
  · by_cases hd : data.rows = []
    · have hr := run_pipeline_empty_data L data g cr ys ws dse sm nc periods
        freq hdf [] hv hd
      rw [hr] at he
      simp only [] at he
      cases he
      exact ⟨by simp, fun _ => by simpa using hr, by simp, by simp⟩
    · cases hfq : freqStep freq with
      | none =>
          have hr := run_pipeline_bad_freq L data g cr ys ws dse sm nc
            periods freq hdf [] hv hd hfq
          rw [hr] at he
          simp only [] at he
          cases he
          exact ⟨by simp, by simp, fun _ => by simpa using hr, by simp⟩
      | some s =>
          have hr := run_pipeline_success L data g cr ys ws dse sm nc
            periods freq hdf [] s hv hd hfq
          rw [hr] at he
          simp at he
  · have hv2 : validConfig (cfgOf g cr ys ws dse sm nc) = false := by
      simpa using hv
    have hr := run_pipeline_invalid_config L data g cr ys ws dse sm nc
      periods freq hdf [] hv2
    rw [hr] at he
    simp only [] at he
    cases he
    exact ⟨fun _ => by simpa using hr, by simp, by simp, by simp⟩

/-- C5 witness: at an invalid growth mode the pipeline returns the
constructor error with only the constructor call in the trace. -/
theorem C5_errors_abort_pipeline_witness :
    run_forecasting_pipeline zeroOracle sampleSeries "cubic" 1
        SeasonalitySetting.auto SeasonalitySetting.auto
        SeasonalitySetting.disabled "additive" 25 2 "D" none [] =
      (Except.error LibErr.invalidConfig,
        [Event.createCall (cfgOf "cubic" 1 SeasonalitySetting.auto
          SeasonalitySetting.auto SeasonalitySetting.disabled "additive"
          25)]) :=
  (C5_errors_abort_pipeline zeroOracle sampleSeries "cubic" 1
    SeasonalitySetting.auto SeasonalitySetting.auto
    SeasonalitySetting.disabled "additive" 25 2 "D" none
    LibErr.invalidConfig (by rfl)).1 rfl

/-- The pipeline's returned value with the presentation step absent,
following the spec's words for the frame claim: the forecast is produced
and returned without invoking the renderer at all. -/
def pipeline_result_sans_plot (L : LibOracle) (data : Series)
    (growth : String) (changepoint_range : Rat)
    (yearly_seasonality weekly_seasonality daily_seasonality : SeasonalitySetting)
    (seasonality_mode : String) (n_changepoints : Nat) (periods : Nat)
    (freq : String) (holidays_df : Option HolidayTable) : LibM Forecast :=
  LibM.bind (create_prophet_model growth changepoint_range yearly_seasonality
      weekly_seasonality daily_seasonality seasonality_mode n_changepoints)
    fun model =>
    LibM.bind (match holidays_df with
      | some h => add_holidays_to_model model h
      | none => LibM.ret model) fun model1 =>
      LibM.bind (fit_prophet_model model1 data) fun model2 =>
        make_future_predictions L model2 periods freq

theorem sans_plot_fst_success (L : LibOracle) (data : Series) (g : String)
    (cr : Rat) (ys ws dse : SeasonalitySetting) (sm : String) (nc : Nat)
    (periods : Nat) (freq : String) (hdf : Option HolidayTable)
    (tr : List Event) (s : Int)
    (hv : validConfig (cfgOf g cr ys ws dse sm nc) = true)
    (hd : data.rows ≠ []) (hf : freqStep freq = some s) :
    (pipeline_result_sans_plot L data g cr ys ws dse sm nc periods freq hdf
        tr).1 =
      Except.ok (forecastOf L (cfgOf g cr ys ws dse sm nc) hdf data periods
        s) := by
  have hde : data.rows.isEmpty = false := by
    cases h : data.rows with
    | nil => exact absurd h hd
    | cons a l => rfl
  cases hdf with
  | none =>
      simp [pipeline_result_sans_plot, create_prophet_model, Prophet.init,
        add_holidays_to_model, fit_prophet_model, Model.fit,
        make_future_predictions, Model.make_future_dataframe, Model.predict,
        Model.add_country_holidays, Model.add_seasonality, LibM.bind,
        LibM.ret, LibM.logE, LibM.fail, cfgOf] at *
      simp [hv, hde, hf, preFitModel, freshModel, fittedModel, forecastOf,
        futureOf, cfgOf, LibM.bind, LibM.ret, LibM.logE, LibM.fail]
  | some h =>
      simp [pipeline_result_sans_plot, create_prophet_model, Prophet.init,
        add_holidays_to_model, fit_prophet_model, Model.fit,
        make_future_predictions, Model.make_future_dataframe, Model.predict,
        Model.add_country_holidays, Model.add_seasonality, LibM.bind,
        LibM.ret, LibM.logE, LibM.fail, cfgOf] at *
      simp [hv, hde, hf, preFitModel, freshModel, usAugment, fittedModel,
        forecastOf, futureOf, monthlySeas, cfgOf, LibM.bind, LibM.ret,
        LibM.logE, LibM.fail]

theorem sans_plot_fst_invalid_config (L : LibOracle) (data : Series)
    (g : String) (cr : Rat) (ys ws dse : SeasonalitySetting) (sm : String)
    (nc : Nat) (periods : Nat) (freq : String) (hdf : Option HolidayTable)
    (tr : List Event)
    (hv : validConfig (cfgOf g cr ys ws dse sm nc) = false) :
    (pipeline_result_sans_plot L data g cr ys ws dse sm nc periods freq hdf
        tr).1 = Except.error LibErr.invalidConfig := by
  simp only [pipeline_result_sans_plot, create_prophet_model, Prophet.init,
    LibM.bind, LibM.ret, LibM.logE, LibM.fail, cfgOf] at *
  simp [hv, LibM.ret, LibM.fail]

theorem sans_plot_fst_empty_data (L : LibOracle) (data : Series)
    (g : String) (cr : Rat) (ys ws dse : SeasonalitySetting) (sm : String)
    (nc : Nat) (periods : Nat) (freq : String) (hdf : Option HolidayTable)
    (tr : List Event)
    (hv : validConfig (cfgOf g cr ys ws dse sm nc) = true)
    (hd : data.rows = []) :
    (pipeline_result_sans_plot L data g cr ys ws dse sm nc periods freq hdf
        tr).1 = Except.error LibErr.emptySeries := by
  have hde : data.rows.isEmpty = true := by simp [hd]
  cases hdf with
  | none =>
      simp [pipeline_result_sans_plot, create_prophet_model, Prophet.init,
        add_holidays_to_model, fit_prophet_model, Model.fit,
        Model.add_country_holidays, Model.add_seasonality, LibM.bind,
        LibM.ret, LibM.logE, LibM.fail, cfgOf] at *
      simp [hv, hde, LibM.bind, LibM.ret, LibM.logE, LibM.fail]
  | some h =>
      simp [pipeline_result_sans_plot, create_prophet_model, Prophet.init,
        add_holidays_to_model, fit_prophet_model, Model.fit,
        Model.add_country_holidays, Model.add_seasonality, LibM.bind,
        LibM.ret, LibM.logE, LibM.fail, cfgOf] at *
      simp [hv, hde, LibM.bind, LibM.ret, LibM.logE, LibM.fail]

theorem sans_plot_fst_bad_freq (L : LibOracle) (data : Series) (g : String)
    (cr : Rat) (ys ws dse : SeasonalitySetting) (sm : String) (nc : Nat)
    (periods : Nat) (freq : String) (hdf : Option HolidayTable)
    (tr : List Event)
    (hv : validConfig (cfgOf g cr ys ws dse sm nc) = true)
    (hd : data.rows ≠ []) (hf : freqStep freq = none) :
    (pipeline_result_sans_plot L data g cr ys ws dse sm nc periods freq hdf
        tr).1 = Except.error LibErr.invalidFreq := by
  have hde : data.rows.isEmpty = false := by
    cases h : data.rows with
    | nil => exact absurd h hd
    | cons a l => rfl
  cases hdf with
  | none =>
      simp [pipeline_result_sans_plot, create_prophet_model, Prophet.init,
        add_holidays_to_model, fit_prophet_model, Model.fit,
        make_future_predictions, Model.make_future_dataframe,
        Model.add_country_holidays, Model.add_seasonality, LibM.bind,
        LibM.ret, LibM.logE, LibM.fail, cfgOf] at *
      simp [hv, hde, hf, LibM.bind, LibM.ret, LibM.logE, LibM.fail]
  | some h =>
      simp [pipeline_result_sans_plot, create_prophet_model, Prophet.init,
        add_holidays_to_model, fit_prophet_model, Model.fit,
        make_future_predictions, Model.make_future_dataframe,
        Model.add_country_holidays, Model.add_seasonality, LibM.bind,
        LibM.ret, LibM.logE, LibM.fail, cfgOf] at *
      simp [hv, hde, hf, LibM.bind, LibM.ret, LibM.logE, LibM.fail]

/-- C8: the value returned by the pipeline is exactly the forecast
produced by `make_future_predictions`, unchanged by the presentation step:
for every input the returned value equals the value of a pipeline with the
renderer absent, and when a forecast is returned it is precisely the
output of `make_future_predictions` on the fitted handle. -/
theorem C8_plot_does_not_affect_result (L : LibOracle) (data : Series)
    (g : String) (cr : Rat) (ys ws dse : SeasonalitySetting) (sm : String)
    (nc : Nat) (periods : Nat) (freq : String) (hdf : Option HolidayTable)
    (tr : List Event) :
    ((run_forecasting_pipeline L data g cr ys ws dse sm nc periods freq hdf
        tr).1 =
      (pipeline_result_sans_plot L data g cr ys ws dse sm nc periods freq
        hdf tr).1) ∧
    (∀ fc : Forecast,
      (run_forecasting_pipeline L data g cr ys ws dse sm nc periods freq hdf
          tr).1 = Except.ok fc →
      (make_future_predictions L (fittedModel (cfgOf g cr ys ws dse sm nc)
          hdf data) periods freq []).1 = Except.ok fc) := by
  constructor
  · by_cases hv : validConfig (cfgOf g cr ys ws dse sm nc) = true
    · by_cases hd : data.rows = []
      · rw [run_pipeline_empty_data L data g cr ys ws dse sm nc periods freq
          hdf tr hv hd,
          sans_plot_fst_empty_data L data g cr ys ws dse sm nc periods freq
            hdf tr hv hd]
      · cases hfq : freqStep freq with
        | none =>
            rw [run_pipeline_bad_freq L data g cr ys ws dse sm nc periods
              freq hdf tr hv hd hfq,
              sans_plot_fst_bad_freq L data g cr ys ws dse sm nc periods
                freq hdf tr hv hd hfq]
        | some s =>
            rw [run_pipeline_success L data g cr ys ws dse sm nc periods
              freq hdf tr s hv hd hfq,
              sans_plot_fst_success L data g cr ys ws dse sm nc periods freq
                hdf tr s hv hd hfq]
    · have hv2 : validConfig (cfgOf g cr ys ws dse sm nc) = false := by
        simpa using hv
      rw [run_pipeline_invalid_config L data g cr ys ws dse sm nc periods
        freq hdf tr hv2,
        sans_plot_fst_invalid_config L data g cr ys ws dse sm nc periods
          freq hdf tr hv2]
  · intro fc hfc
    by_cases hv : validConfig (cfgOf g cr ys ws dse sm nc) = true
    · by_cases hd : data.rows = []
      · rw [run_pipeline_empty_data L data g cr ys ws dse sm nc periods freq
          hdf tr hv hd] at hfc
        simp at hfc
      · cases hfq : freqStep freq with
        | none =>
            rw [run_pipeline_bad_freq L data g cr ys ws dse sm nc periods
              freq hdf tr hv hd hfq] at hfc
            simp at hfc
        | some s =>
            rw [run_pipeline_success L data g cr ys ws dse sm nc periods
              freq hdf tr s hv hd hfq] at hfc
            simp only [] at hfc
            injection hfc with hfc2
            subst hfc2
            simp [make_future_predictions, Model.make_future_dataframe,
              Model.predict, LibM.bind, LibM.ret, LibM.logE, fittedModel,
              hfq, forecastOf, futureOf]
    · have hv2 : validConfig (cfgOf g cr ys ws dse sm nc) = false := by
        simpa using hv
      rw [run_pipeline_invalid_config L data g cr ys ws dse sm nc periods
        freq hdf tr hv2] at hfc
      simp at hfc

/-- C8 witness: at a concrete input the pipeline returns exactly the
forecast that `make_future_predictions` produces on the fitted handle. -/
theorem C8_plot_does_not_affect_result_witness :
    (make_future_predictions zeroOracle (fittedModel sampleCfg none
        sampleSeries) 2 "D" []).1 =
      Except.ok (forecastOf zeroOracle sampleCfg none sampleSeries 2 1) :=
  (C8_plot_does_not_affect_result zeroOracle sampleSeries "linear" 1
    SeasonalitySetting.auto SeasonalitySetting.auto
    SeasonalitySetting.disabled "additive" 25 2 "D" none []).2
    (forecastOf zeroOracle sampleCfg none sampleSeries 2 1) (by rfl)

/-- A daily observation series of n consecutive days from a start date. -/
def dailySeries (start : Int) (y : Nat → Rat) (n : Nat) : Series :=
  ⟨(List.range n).map (fun i => (start + Int.ofNat i, y i))⟩

theorem forecastOf_ds (L : LibOracle) (cfg : ProphetConfig)
    (hdf : Option HolidayTable) (data : Series) (periods : Nat) (s : Int) :
    (forecastOf L cfg hdf data periods s).ds = futureOf data periods s := by
  simp [forecastOf, Forecast.ds, List.map_map, Function.comp_def]

theorem futureOf_take_length (data : Series) (periods : Nat) (s : Int) :
    (futureOf data periods s).take data.ds.length = data.ds := by
  unfold futureOf
  exact List.take_left _ _

/-- C9: for a 2-year (730-day) daily series with no missing dates, linear
growth, changepoint range 0.8 and a 365-step daily horizon, the pipeline
returns a forecast with exactly 730 + 365 rows whose first 730 timestamps
are the input timestamps, in order. -/
theorem C9_two_year_daily_scenario (L : LibOracle) (start : Int)
    (y : Nat → Rat) :
    (run_forecasting_pipeline L (dailySeries start y 730) "linear" (4 / 5)
        SeasonalitySetting.auto SeasonalitySetting.auto
        SeasonalitySetting.disabled "additive" 25 365 "D" none []).1 =
      Except.ok (forecastOf L (cfgOf "linear" (4 / 5) SeasonalitySetting.auto
        SeasonalitySetting.auto SeasonalitySetting.disabled "additive" 25)
        none (dailySeries start y 730) 365 1) ∧
    (forecastOf L (cfgOf "linear" (4 / 5) SeasonalitySetting.auto
        SeasonalitySetting.auto SeasonalitySetting.disabled "additive" 25)
        none (dailySeries start y 730) 365 1).rows.length = 730 + 365 ∧
    ((forecastOf L (cfgOf "linear" (4 / 5) SeasonalitySetting.auto
        SeasonalitySetting.auto SeasonalitySetting.disabled "additive" 25)
        none (dailySeries start y 730) 365 1).ds.take 730 =
      (dailySeries start y 730).ds) := by
  have hv : validConfig (cfgOf "linear" (4 / 5) SeasonalitySetting.auto
      SeasonalitySetting.auto SeasonalitySetting.disabled "additive" 25) =
      true := by
    norm_num [validConfig, validGrowth, validSeasonalityMode, cfgOf]
  have hd : (dailySeries start y 730).rows ≠ [] := by simp [dailySeries]
  have hlen : (dailySeries start y 730).ds.length = 730 := by
    simp [dailySeries, Series.ds]
  refine ⟨?_, ?_, ?_⟩
  · rw [run_pipeline_success L (dailySeries start y 730) "linear" (4 / 5)
      SeasonalitySetting.auto SeasonalitySetting.auto
      SeasonalitySetting.disabled "additive" 25 365 "D" none [] 1 hv hd
      (by rfl)]
  · simp [forecastOf, futureOf, Series.ds, dailySeries]
  · have ht := futureOf_take_length (dailySeries start y 730) 365 1
    rw [hlen] at ht
    rw [forecastOf_ds]
    exact ht

/-- C10: the pipeline does not mutate the caller's inputs: in a completed
run the fit call binds exactly the caller's series (its very value is in
the fit event and stored unmodified as the fitted handle's history), and
the holiday table never influences any call or the result beyond its
presence — the run is unchanged under any replacement of its contents. -/
theorem C10_inputs_read_only (L : LibOracle) (data : Series) (g : String)
    (cr : Rat) (ys ws dse : SeasonalitySetting) (sm : String) (nc : Nat)
    (periods : Nat) (freq : String) (hdf : Option HolidayTable)
    (tr : List Event) (s : Int)
    (hv : validConfig (cfgOf g cr ys ws dse sm nc) = true)
    (hd : data.rows ≠ []) (hf : freqStep freq = some s) :
    run_forecasting_pipeline L data g cr ys ws dse sm nc periods freq hdf
        tr =
      (Except.ok (forecastOf L (cfgOf g cr ys ws dse sm nc) hdf data periods
          s),
        tr ++ successTrace L (cfgOf g cr ys ws dse sm nc) hdf data periods
          freq s) ∧
    Event.fitCall (preFitModel (cfgOf g cr ys ws dse sm nc) hdf) data ∈
      successTrace L (cfgOf g cr ys ws dse sm nc) hdf data periods freq s ∧
    (fittedModel (cfgOf g cr ys ws dse sm nc) hdf data).history =
      some data ∧
    (∀ h1 h2 : HolidayTable,
      run_forecasting_pipeline L data g cr ys ws dse sm nc periods freq
          (some h1) tr =
        run_forecasting_pipeline L data g cr ys ws dse sm nc periods freq
          (some h2) tr) := by
  refine ⟨run_pipeline_success L data g cr ys ws dse sm nc periods freq hdf
    tr s hv hd hf, ?_, rfl, fun h1 h2 => rfl⟩
  simp [successTrace]

/-- C10 witness: at a concrete input the fitted handle's history is
exactly the caller's series. -/
theorem C10_inputs_read_only_witness :
    (fittedModel sampleCfg none sampleSeries).history = some sampleSeries :=
  (C10_inputs_read_only zeroOracle sampleSeries "linear" 1
    SeasonalitySetting.auto SeasonalitySetting.auto
    SeasonalitySetting.disabled "additive" 25 2 "D" none [] 1 (by decide)
    (by decide) (by decide)).2.2.1

/-- C7 witness: on a concrete fitted handle with a 10-step daily horizon
the forecast call returns a forecast, and the two-call instantiation gives
identical timestamp ranges. -/
theorem C7_forecast_deterministic_witness :
    (make_future_predictions zeroOracle (fittedModel sampleCfg none
        sampleSeries) 10 "D" []).1 =
      Except.ok (forecastOf zeroOracle sampleCfg none sampleSeries 10 1) ∧
    (forecastOf zeroOracle sampleCfg none sampleSeries 10 1).ds =
      (forecastOf zeroOracle sampleCfg none sampleSeries 10 1).ds :=
  ⟨by rfl,
    (C7_forecast_deterministic zeroOracle (fittedModel sampleCfg none
      sampleSeries) 10 "D" [] []).2
      (forecastOf zeroOracle sampleCfg none sampleSeries 10 1)
      (forecastOf zeroOracle sampleCfg none sampleSeries 10 1) (by rfl)
      (by rfl)⟩
